import Mathlib

/-!
Verification development for the SpotifyDL music-download bot
(source files: bot/handlers.py, bot/audio_processor.py, main.py, app.py).

The definitions below are a shallow embedding of the Python source:
  - pure fragments (filename sanitization, md5-based path allocation,
    quality mapping) become Lean functions;
  - the stateful handler layer (conversation slots in user_data, the
    playlist/album batch loops, cancellation) becomes explicit state
    passing over a UserData record, with observable side effects
    (message edits, fetch calls, audio deliveries, log records)
    collected into a trace of Act values;
  - the fallible subprocess layer (yt-dlp invocation) is modelled by an
    environment record carrying the subprocess return code, the
    directory listing after the run, and flags for raised exceptions;
    Python functions that swallow exceptions become total Lean
    functions returning Option / plain state.

The chat transport (message edit/send acknowledgements) is modelled as
reliable: the claims under study quantify over fetch failures, not
transport failures, and the transport is an external collaborator.
-/

/-! ## Data model

Track dictionaries flowing through the batch loops use only the
`name` and `artist` keys (handlers.py lines 498, 504, 514-516).  The
single-track flow additionally uses duration fields (lines 128-130,
424).  Playlist/album info dictionaries carry name, owner/artist and
the ordered track list. -/

structure Track where
  name : String
  artist : String
deriving DecidableEq

structure TrackInfo where
  name : String
  artist : String
  duration : String
  duration_ms : Nat
deriving DecidableEq

structure PlaylistInfo where
  name : String
  owner : String
  tracks : List Track
deriving DecidableEq

structure AlbumInfo where
  name : String
  artist : String
  tracks : List Track
deriving DecidableEq

/-- Per-requester conversation state: the keys written into
`context.user_data` by handlers.py (lines 119-121, 194-196, 243-245).
No handler ever deletes or clears a key; writes only overwrite the key
they name. -/
structure UserData where
  current_track : Option TrackInfo
  current_playlist : Option PlaylistInfo
  current_album : Option AlbumInfo
  processing_msg_id : Option Nat
deriving DecidableEq

/-- The empty conversation state (fresh session: no key present). -/
def UserData.empty : UserData := ⟨none, none, none, none⟩

/-! ## Filename sanitization (audio_processor.py lines 73-76)

Python:
  file_hash = hashlib.md5(search_query.encode()).hexdigest()[:8]
  safe_filename = re.sub(r'[^\w\s-]', '', search_query).strip()
  safe_filename = re.sub(r'[-\s]+', '-', safe_filename)
  output_template = os.path.join(self.download_dir,
                                 f"{safe_filename}-{file_hash}.%(ext)s")

We model the regex character classes over the ASCII range
(Python `\w` = word character, `\s` = whitespace). -/

/-- Python regex word character (ASCII range): letter, digit or underscore. -/
def isWordChar (c : Char) : Bool :=
  c.isAlphanum || c = '_'

/-- Python regex whitespace character (ASCII range). -/
def isPySpace (c : Char) : Bool :=
  c = ' ' || c = '\t' || c = '\n' || c = '\r' || c = '\x0b' || c = '\x0c'

/-- A character surviving re.sub applied with pattern [^\w\s-]: word
character, whitespace or a dash. -/
def keepChar (c : Char) : Bool :=
  isWordChar c || isPySpace c || c = '-'

/-- Python str.strip(): drop leading and trailing whitespace. -/
def pyStrip (l : List Char) : List Char :=
  ((l.dropWhile isPySpace).reverse.dropWhile isPySpace).reverse

/-- A character matched by the class [-\s]. -/
def isDashOrSpace (c : Char) : Bool :=
  c = '-' || isPySpace c

/-- Replace each maximal run of [-\s] characters by a single dash,
mirroring re.sub applied with pattern [-\s]+ and replacement "-".  The
boolean argument records whether the previous character belonged to the
class (i.e. whether we are inside a run). -/
def collapseRuns : Bool → List Char → List Char
  | _, [] => []
  | inRun, c :: rest =>
    if isDashOrSpace c then
      if inRun then collapseRuns true rest
      else '-' :: collapseRuns true rest
    else c :: collapseRuns false rest

/-- The sanitized human-readable filename component computed by
_download_with_ytdlp_search (audio_processor.py lines 74-75). -/
def safe_filename (q : String) : String :=
  String.mk (collapseRuns false (pyStrip (q.data.filter keepChar)))

/-! ## MD5 (hashlib.md5, used at audio_processor.py line 73)

A direct implementation of RFC 1321 over Nat with explicit reduction
modulo 2^32, operating on the UTF-8 bytes of the query string. -/

/-- Addition modulo 2^32. -/
def add32 (a b : Nat) : Nat := (a + b) % 4294967296

/-- Bitwise complement within 32 bits (argument below 2^32). -/
def not32 (x : Nat) : Nat := 4294967295 - x

/-- Left rotation of a 32-bit word by s (0 < s < 32) positions. -/
def rotl32 (x s : Nat) : Nat :=
  (x * 2 ^ s + x / 2 ^ (32 - s)) % 4294967296

/-- MD5 auxiliary function F. -/
def mdF (b c d : Nat) : Nat := (b.land c).lor ((not32 b).land d)

/-- MD5 auxiliary function G. -/
def mdG (b c d : Nat) : Nat := (b.land d).lor (c.land (not32 d))

/-- MD5 auxiliary function H. -/
def mdH (b c d : Nat) : Nat := (b.xor c).xor d

/-- MD5 auxiliary function I. -/
def mdI (b c d : Nat) : Nat := c.xor (b.lor (not32 d))

/-- The 64 MD5 sine-derived constants. -/
def mdK : List Nat :=
  [0xd76aa478, 0xe8c7b756, 0x242070db, 0xc1bdceee,
   0xf57c0faf, 0x4787c62a, 0xa8304613, 0xfd469501,
   0x698098d8, 0x8b44f7af, 0xffff5bb1, 0x895cd7be,
   0x6b901122, 0xfd987193, 0xa679438e, 0x49b40821,
   0xf61e2562, 0xc040b340, 0x265e5a51, 0xe9b6c7aa,
   0xd62f105d, 0x02441453, 0xd8a1e681, 0xe7d3fbc8,
   0x21e1cde6, 0xc33707d6, 0xf4d50d87, 0x455a14ed,
   0xa9e3e905, 0xfcefa3f8, 0x676f02d9, 0x8d2a4c8a,
   0xfffa3942, 0x8771f681, 0x6d9d6122, 0xfde5380c,
   0xa4beea44, 0x4bdecfa9, 0xf6bb4b60, 0xbebfbc70,
   0x289b7ec6, 0xeaa127fa, 0xd4ef3085, 0x04881d05,
   0xd9d4d039, 0xe6db99e5, 0x1fa27cf8, 0xc4ac5665,
   0xf4292244, 0x432aff97, 0xab9423a7, 0xfc93a039,
   0x655b59c3, 0x8f0ccc92, 0xffeff47d, 0x85845dd1,
   0x6fa87e4f, 0xfe2ce6e0, 0xa3014314, 0x4e0811a1,
   0xf7537e82, 0xbd3af235, 0x2ad7d2bb, 0xeb86d391]

/-- The 64 MD5 per-operation rotation amounts. -/
def mdS : List Nat :=
  [7, 12, 17, 22, 7, 12, 17, 22, 7, 12, 17, 22, 7, 12, 17, 22,
   5, 9, 14, 20, 5, 9, 14, 20, 5, 9, 14, 20, 5, 9, 14, 20,
   4, 11, 16, 23, 4, 11, 16, 23, 4, 11, 16, 23, 4, 11, 16, 23,
   6, 10, 15, 21, 6, 10, 15, 21, 6, 10, 15, 21, 6, 10, 15, 21]

/-- One MD5 operation (operation index i in 0..63) on state (a,b,c,d)
with the 16 message words M of the current chunk. -/
def mdOp (M : List Nat) (st : Nat × Nat × Nat × Nat) (i : Nat) :
    Nat × Nat × Nat × Nat :=
  let a := st.1
  let b := st.2.1
  let c := st.2.2.1
  let d := st.2.2.2
  let f :=
    if i < 16 then mdF b c d
    else if i < 32 then mdG b c d
    else if i < 48 then mdH b c d
    else mdI b c d
  let g :=
    if i < 16 then i
    else if i < 32 then (5 * i + 1) % 16
    else if i < 48 then (3 * i + 5) % 16
    else (7 * i) % 16
  let t := add32 (add32 (add32 a f) (mdK.getD i 0)) (M.getD g 0)
  (d, add32 b (rotl32 t (mdS.getD i 0)), b, c)

/-- Process one 64-byte chunk (given as its 16 little-endian words). -/
def mdChunk (h : Nat × Nat × Nat × Nat) (M : List Nat) :
    Nat × Nat × Nat × Nat :=
  let r := (List.range 64).foldl (mdOp M) h
  (add32 h.1 r.1, add32 h.2.1 r.2.1,
   add32 h.2.2.1 r.2.2.1, add32 h.2.2.2 r.2.2.2)

/-- The k little-endian bytes of n. -/
def leBytes : Nat → Nat → List Nat
  | 0, _ => []
  | k + 1, n => n % 256 :: leBytes k (n / 256)

/-- MD5 padding: append 0x80, zero bytes up to 56 mod 64, then the
64-bit little-endian bit length. -/
def md5pad (msg : List Nat) : List Nat :=
  msg ++ [0x80] ++ List.replicate ((119 - msg.length % 64) % 64) 0 ++
    leBytes 8 (msg.length * 8)

/-- Group a byte list into little-endian 32-bit words. -/
def toWords : List Nat → List Nat
  | b0 :: b1 :: b2 :: b3 :: rest =>
    (b0 + 256 * b1 + 65536 * b2 + 16777216 * b3) :: toWords rest
  | _ => []

/-- Split a list into chunks of 64 elements (fuel-indexed structural
recursion; the fuel is initialised to the list length, which bounds
the number of chunks). -/
def chunks64Aux : Nat → List Nat → List (List Nat)
  | _, [] => []
  | 0, _ :: _ => []
  | fuel + 1, l => l.take 64 :: chunks64Aux fuel (l.drop 64)

/-- Split a list into chunks of 64 elements. -/
def chunks64 (l : List Nat) : List (List Nat) := chunks64Aux l.length l

/-- The 16 digest bytes of a byte message. -/
def md5digestBytes (msg : List Nat) : List Nat :=
  let r := (chunks64 (md5pad msg)).foldl
    (fun h chunk => mdChunk h (toWords chunk))
    (0x67452301, 0xefcdab89, 0x98badcfe, 0x10325476)
  leBytes 4 r.1 ++ leBytes 4 r.2.1 ++ leBytes 4 r.2.2.1 ++ leBytes 4 r.2.2.2

/-- Lowercase hex digit for n < 16. -/
def hexDigit (n : Nat) : Char :=
  if n < 10 then Char.ofNat (48 + n) else Char.ofNat (87 + n)

/-- Two lowercase hex digits of a byte. -/
def byteHex (b : Nat) : List Char := [hexDigit (b / 16), hexDigit (b % 16)]

/-- UTF-8 encoding of a code point (str.encode()). -/
def utf8Bytes (c : Nat) : List Nat :=
  if c < 0x80 then [c]
  else if c < 0x800 then [0xc0 + c / 64, 0x80 + c % 64]
  else if c < 0x10000 then
    [0xe0 + c / 4096, 0x80 + c / 64 % 64, 0x80 + c % 64]
  else
    [0xf0 + c / 262144, 0x80 + c / 4096 % 64, 0x80 + c / 64 % 64,
     0x80 + c % 64]

/-- The UTF-8 bytes of a string. -/
def strBytes (s : String) : List Nat :=
  s.data.flatMap (fun c => utf8Bytes c.toNat)

/-- The hex characters of hashlib.md5(s.encode()).hexdigest(). -/
def md5hexChars (s : String) : List Char :=
  (md5digestBytes (strBytes s)).flatMap byteHex

/-- hashlib.md5(s.encode()).hexdigest() as a string. -/
def md5hex (s : String) : String := String.mk (md5hexChars s)

/-- file_hash in _download_with_ytdlp_search (audio_processor.py line
73): the first 8 characters of the md5 hex digest of the query. -/
def file_hash (q : String) : String := String.mk ((md5hexChars q).take 8)

/-- The output template path allocated for a query
(audio_processor.py line 76): download_dir joined with
safe_filename-file_hash.%(ext)s. -/
def output_template (dir q : String) : String :=
  dir ++ "/" ++ safe_filename q ++ "-" ++ file_hash q ++ ".%(ext)s"

/-! ## yt-dlp invocation (audio_processor.py lines 59-125)

The subprocess run is modelled by an environment: whether any
exception was raised inside the try block, the subprocess return code,
and the basenames present in the download directory after the run
(os.listdir).  All exceptions are caught by the except clause and
converted to a None result. -/

structure YtdlpEnv where
  raises : Bool
  returncode : Int
  filesAfter : List String
deriving DecidableEq

/-- os.path.exists for a full path inside the download directory whose
listing is fs. -/
def os_path_exists (dir : String) (fs : List String) (p : String) : Bool :=
  fs.any (fun bn => dir ++ "/" ++ bn == p)

/-- Substring test (the Python "in" operator on strings). -/
def containsSub (hay needle : List Char) : Bool :=
  match hay with
  | [] => needle.isEmpty
  | _ :: t => needle.isPrefixOf hay || containsSub t needle

/-- _map_quality_to_ytdlp (audio_processor.py lines 129-144):
quality_map.get(quality, "192K"). -/
def _map_quality_to_ytdlp (quality : String) : String :=
  if quality = "128" then "128K"
  else if quality = "192" then "192K"
  else if quality = "320" then "320K"
  else "192K"

/-- _download_with_ytdlp_search (audio_processor.py lines 59-125):
on a raised exception inside the try, None; on return code 0, the
expected mp3 path if it exists, otherwise the first listed file
containing the query hash and ending in .mp3, otherwise the implicit
None at the end of the if; on a nonzero return code, None. -/
def _download_with_ytdlp_search (env : YtdlpEnv) (dir q : String) :
    Option String :=
  if env.raises then none
  else if env.returncode = 0 then
    let expected_path := (output_template dir q).replace "%(ext)s" "mp3"
    if os_path_exists dir env.filesAfter expected_path then some expected_path
    else
      match env.filesAfter.find?
        (fun f => containsSub f.data (file_hash q).data &&
                  f.endsWith ".mp3") with
      | some f => some (dir ++ "/" ++ f)
      | none => none
  else none

/-- The search query built by download_track (audio_processor.py line
42) from a batch track dictionary. -/
def track_query (t : Track) : String := t.name ++ " " ++ t.artist

/-- The same search query built from a single-track info dictionary. -/
def track_info_query (t : TrackInfo) : String := t.name ++ " " ++ t.artist

/-- download_track (audio_processor.py lines 31-57): calls
_download_with_ytdlp_search and returns the path only when it is
non-None and os.path.exists confirms it; every exception inside the
try is caught and yields None. -/
def download_track (env : YtdlpEnv) (dir : String) (track : Track)
    (quality : String) : Option String :=
  match _download_with_ytdlp_search env dir (track_query track) with
  | some file_path =>
    if os_path_exists dir env.filesAfter file_path then some file_path
    else none
  | none => none

/-! ## File cleanup (audio_processor.py lines 148-171)

The scratch directory contents are modelled as a membership predicate
on paths.  os.remove may raise; cleanup_file wraps its body in
try/except, so a raised error is logged and swallowed.  The Except
result type records whether an exception escapes to the caller; the
theorems show it never does. -/

/-- os.remove: removes the path, or raises OSError (removeOk false). -/
def os_remove_result (removeOk : Bool) (fs : String → Bool) (p : String) :
    Except String (String → Bool) :=
  if removeOk then Except.ok (fun q => if q = p then false else fs q)
  else Except.error "OSError"

/-- cleanup_file (audio_processor.py lines 148-160): if the path
exists, remove it; any exception is caught and only logged, with the
filesystem left as the failed removal left it. -/
def cleanup_file (removeOk : Bool) (fs : String → Bool) (p : String) :
    Except String (String → Bool) :=
  match (if fs p then os_remove_result removeOk fs p else Except.ok fs) with
  | Except.ok fs2 => Except.ok fs2
  | Except.error _ => Except.ok fs

/-- cleanup_all (audio_processor.py lines 162-171): cleanup_file on
every listed basename.  Defined by the source but never invoked by any
handler code path (the rmdir call is outside this model of file
contents). -/
def cleanup_all (removeOk : String → Bool) (dir : String)
    (listing : List String) (fs : String → Bool) : String → Bool :=
  listing.foldl
    (fun acc bn =>
      match cleanup_file (removeOk (dir ++ "/" ++ bn)) acc
              (dir ++ "/" ++ bn) with
      | Except.ok fs2 => fs2
      | Except.error _ => acc)
    fs

/-! ## Handler layer (bot/handlers.py)

Observable side effects are collected into a trace of Act values, in
the order the source performs them.  The fetch adapter is a parameter
mapping a search query to the Optional path that
audio_processor.download_track returns for it (download_track is total
at its interface, see the C10 theorem). -/

inductive Act where
  | trackNotFound
  | playlistNotFound
  | albumNotFound
  | trackPrompt (name artist : String)
  | playlistPrompt (name : String) (count : Nat)
  | albumPrompt (name : String) (count : Nat)
  | sessionExpired
  | cancelledMsg
  | startBanner (name : String)
  | progressEdit (index total : Nat) (name : String) (pct : Nat)
  | fetchCall (query : String)
  | fetchFailLog (query : String)
  | deliverAudio (name path : String)
  | summaryEdit (succeeded total : Nat)
  | downloadingEdit (name : String)
  | completeEdit (name : String)
  | failedEdit (name : String)
deriving DecidableEq

/-- handle_single_track (handlers.py lines 104-142): on a not-found
resolution, edit a not-found message and leave user_data untouched; on
success, store the track info and the processing message id, then show
the quality prompt. -/
def handle_single_track (track_info : Option TrackInfo) (ud : UserData)
    (msgId : Nat) : UserData × List Act :=
  match track_info with
  | none => (ud, [Act.trackNotFound])
  | some t =>
    ({ ud with current_track := some t, processing_msg_id := some msgId },
     [Act.trackPrompt t.name t.artist])

/-- handle_playlist (handlers.py lines 144-204): on a not-found
resolution, edit a not-found message; on success, show the quality
prompt with the track count and store the playlist info. -/
def handle_playlist (playlist_info : Option PlaylistInfo) (ud : UserData)
    (msgId : Nat) : UserData × List Act :=
  match playlist_info with
  | none => (ud, [Act.playlistNotFound])
  | some p =>
    ({ ud with current_playlist := some p, processing_msg_id := some msgId },
     [Act.playlistPrompt p.name p.tracks.length])

/-- handle_album (handlers.py lines 206-253): same shape as
handle_playlist with the album slot. -/
def handle_album (album_info : Option AlbumInfo) (ud : UserData)
    (msgId : Nat) : UserData × List Act :=
  match album_info with
  | none => (ud, [Act.albumNotFound])
  | some a =>
    ({ ud with current_album := some a, processing_msg_id := some msgId },
     [Act.albumPrompt a.name a.tracks.length])

/-- The shared body of the playlist/album batch loops (handlers.py
lines 490-526 and 555-591, which are textually identical): for each
track, 1-based index i, edit the progress message (percentage
i*100//total), call download_track, and on a returned path send the
audio and increment the success count; a None result leaves the count
unchanged (download_track has already logged the failure, modelled by
the fetchFailLog act) and the loop continues with the next item.
Returns the act trace, the success count, and the scratch files
created on disk by the successful fetches (no code in the loop or
after it removes them). -/
def runTracks (fetch : String → Option String) (total : Nat) :
    List Track → Nat → List Act × Nat × List String
  | [], _ => ([], 0, [])
  | t :: rest, i =>
    let r := runTracks fetch total rest (i + 1)
    match fetch (track_query t) with
    | some p =>
      (Act.progressEdit i total t.name (i * 100 / total) ::
         Act.fetchCall (track_query t) ::
         Act.deliverAudio t.name p :: r.1,
       r.2.1 + 1, p :: r.2.2)
    | none =>
      (Act.progressEdit i total t.name (i * 100 / total) ::
         Act.fetchCall (track_query t) ::
         Act.fetchFailLog (track_query t) :: r.1,
       r.2.1, r.2.2)

/-- start_playlist_download (handlers.py lines 476-539): banner edit,
the batch loop from index 1, then the final summary edit reporting
success_count/total_tracks.  No cleanup call appears anywhere on this
path, so the scratch files of the run are returned intact. -/
def start_playlist_download (fetch : String → Option String)
    (p : PlaylistInfo) : List Act × Nat × List String :=
  let total_tracks := p.tracks.length
  let r := runTracks fetch total_tracks p.tracks 1
  (Act.startBanner p.name :: r.1 ++ [Act.summaryEdit r.2.1 total_tracks],
   r.2.1, r.2.2)

/-- start_album_download (handlers.py lines 541-604): identical loop
over the album's tracks. -/
def start_album_download (fetch : String → Option String)
    (a : AlbumInfo) : List Act × Nat × List String :=
  let total_tracks := a.tracks.length
  let r := runTracks fetch total_tracks a.tracks 1
  (Act.startBanner a.name :: r.1 ++ [Act.summaryEdit r.2.1 total_tracks],
   r.2.1, r.2.2)

/-- start_track_download (handlers.py lines 397-457): edit the
downloading message, call download_track, then on a path send the
audio and edit the completion message; on None raise and catch,
editing the failure message. -/
def start_track_download (fetch : String → Option String)
    (t : TrackInfo) (quality : String) : List Act :=
  match fetch (track_info_query t) with
  | some p =>
    [Act.downloadingEdit t.name, Act.fetchCall (track_info_query t),
     Act.deliverAudio t.name p, Act.completeEdit t.name]
  | none =>
    [Act.downloadingEdit t.name, Act.fetchCall (track_info_query t),
     Act.failedEdit t.name]

/-- handle_quality_selection (handlers.py lines 385-395): a
quality_... callback reads the current_track slot; an empty slot edits
the session-expired message and returns, a populated slot starts the
single-track download. -/
def handle_quality_selection (fetch : String → Option String)
    (ud : UserData) (quality : String) : List Act :=
  match ud.current_track with
  | none => [Act.sessionExpired]
  | some t => start_track_download fetch t quality

/-- A parsed download_playlist_... or download_album_... callback. -/
inductive DLRequest where
  | playlist (quality : String)
  | album (quality : String)
deriving DecidableEq

/-- handle_download_request (handlers.py lines 459-474): read the
matching collection slot; a populated slot starts the batch, an empty
slot falls through the if with no message and no further work. -/
def handle_download_request (fetch : String → Option String)
    (ud : UserData) (r : DLRequest) : List Act :=
  match r with
  | DLRequest.playlist _ =>
    match ud.current_playlist with
    | some p => (start_playlist_download fetch p).1
    | none => []
  | DLRequest.album _ =>
    match ud.current_album with
    | some a => (start_album_download fetch a).1
    | none => []

/-- cancel_download (handlers.py lines 606-612): edits the cancelled
message; user_data is not read or written. -/
def cancel_download (ud : UserData) : UserData × List Act :=
  (ud, [Act.cancelledMsg])

/-! ## Trace extractors -/

/-- The fetch calls of a trace, in order. -/
def fetchCalls (acts : List Act) : List String :=
  acts.filterMap fun a =>
    match a with
    | Act.fetchCall q => some q
    | _ => none

/-- The failure log records of a trace, in order. -/
def failLogs (acts : List Act) : List String :=
  acts.filterMap fun a =>
    match a with
    | Act.fetchFailLog q => some q
    | _ => none

/-- The progress edits of a trace as (index, total, name, percent). -/
def progressEdits (acts : List Act) : List (Nat × Nat × String × Nat) :=
  acts.filterMap fun a =>
    match a with
    | Act.progressEdit i tot n pct => some (i, tot, n, pct)
    | _ => none

/-- The audio deliveries of a trace as (name, path). -/
def deliveries (acts : List Act) : List (String × String) :=
  acts.filterMap fun a =>
    match a with
    | Act.deliverAudio n p => some (n, p)
    | _ => none

/-! ## Batch loop lemmas -/

/-- The success count of the batch loop counts the items whose fetch
returns a path. -/
theorem runTracks_count (f : String → Option String) (tot : Nat) :
    ∀ (l : List Track) (i : Nat),
      (runTracks f tot l i).2.1 =
        l.countP (fun t => (f (track_query t)).isSome)
  | [], _ => by simp [runTracks]
  | t :: rest, i => by
    cases h : f (track_query t) with
    | none =>
      simp [runTracks, h, runTracks_count f tot rest (i + 1),
        List.countP_cons]
    | some p =>
      simp [runTracks, h, runTracks_count f tot rest (i + 1),
        List.countP_cons]

/-- Every item is fetched, in source order. -/
theorem runTracks_fetchCalls (f : String → Option String) (tot : Nat) :
    ∀ (l : List Track) (i : Nat),
      fetchCalls (runTracks f tot l i).1 = l.map track_query
  | [], _ => by simp [runTracks, fetchCalls]
  | t :: rest, i => by
    cases h : f (track_query t) with
    | none =>
      simpa [runTracks, h, fetchCalls] using
        runTracks_fetchCalls f tot rest (i + 1)
    | some p =>
      simpa [runTracks, h, fetchCalls] using
        runTracks_fetchCalls f tot rest (i + 1)

/-- Exactly the items whose fetch fails get a failure log record, in
source order. -/
theorem runTracks_failLogs (f : String → Option String) (tot : Nat) :
    ∀ (l : List Track) (i : Nat),
      failLogs (runTracks f tot l i).1 =
        (l.filter fun t => (f (track_query t)).isNone).map track_query
  | [], _ => by simp [runTracks, failLogs]
  | t :: rest, i => by
    cases h : f (track_query t) with
    | none =>
      simpa [runTracks, h, failLogs] using
        runTracks_failLogs f tot rest (i + 1)
    | some p =>
      simpa [runTracks, h, failLogs] using
        runTracks_failLogs f tot rest (i + 1)

/-- One progress edit per item, in source order, with the percentage
index * 100 / total rounded down. -/
theorem runTracks_progress (f : String → Option String) (tot : Nat) :
    ∀ (l : List Track) (i : Nat),
      progressEdits (runTracks f tot l i).1 =
        (l.enumFrom i).map (fun q => (q.1, tot, q.2.name, q.1 * 100 / tot))
  | [], _ => by simp [runTracks, progressEdits]
  | t :: rest, i => by
    cases h : f (track_query t) with
    | none =>
      simpa [runTracks, h, progressEdits] using
        runTracks_progress f tot rest (i + 1)
    | some p =>
      simpa [runTracks, h, progressEdits] using
        runTracks_progress f tot rest (i + 1)

/-- Exactly the successfully fetched items are delivered, in source
order, with their paths. -/
theorem runTracks_deliveries (f : String → Option String) (tot : Nat) :
    ∀ (l : List Track) (i : Nat),
      deliveries (runTracks f tot l i).1 =
        l.filterMap (fun t =>
          match f (track_query t) with
          | some p => some (t.name, p)
          | none => none)
  | [], _ => by simp [runTracks, deliveries]
  | t :: rest, i => by
    cases h : f (track_query t) with
    | none =>
      simpa [runTracks, h, deliveries] using
        runTracks_deliveries f tot rest (i + 1)
    | some p =>
      simpa [runTracks, h, deliveries] using
        runTracks_deliveries f tot rest (i + 1)

/-- The scratch files left by the loop are the successful fetches. -/
theorem runTracks_files (f : String → Option String) (tot : Nat) :
    ∀ (l : List Track) (i : Nat),
      (runTracks f tot l i).2.2 =
        l.filterMap (fun t => f (track_query t))
  | [], _ => by simp [runTracks]
  | t :: rest, i => by
    cases h : f (track_query t) with
    | none =>
      simpa [runTracks, h] using runTracks_files f tot rest (i + 1)
    | some p =>
      simpa [runTracks, h] using runTracks_files f tot rest (i + 1)

/-- Splitting a track list by fetch success: successes plus failures
make up the whole list. -/
theorem count_some_add_none (f : String → Option String) :
    ∀ l : List Track,
      l.countP (fun t => (f (track_query t)).isSome) +
        l.countP (fun t => (f (track_query t)).isNone) = l.length
  | [] => by simp
  | t :: rest => by
    have ih := count_some_add_none f rest
    cases h : f (track_query t) with
    | none => simp [List.countP_cons, h]; omega
    | some p => simp [List.countP_cons, h]; omega

/-- The banner and summary edits around the loop contribute no fetch
calls, failure logs, progress edits or deliveries. -/
theorem extract_wrap (n : String) (s tot : Nat) (l : List Act) :
    fetchCalls (Act.startBanner n :: l ++ [Act.summaryEdit s tot]) =
      fetchCalls l ∧
    failLogs (Act.startBanner n :: l ++ [Act.summaryEdit s tot]) =
      failLogs l ∧
    progressEdits (Act.startBanner n :: l ++ [Act.summaryEdit s tot]) =
      progressEdits l ∧
    deliveries (Act.startBanner n :: l ++ [Act.summaryEdit s tot]) =
      deliveries l := by
  refine ⟨?_, ?_, ?_, ?_⟩ <;>
    simp [fetchCalls, failLogs, progressEdits, deliveries,
      List.filterMap_cons, List.filterMap_append]

/-- The last act of the wrapped batch trace is the summary edit. -/
theorem getLast_wrap (b x : Act) (l : List Act) :
    (b :: l ++ [x]).getLast? = some x := by
  induction l generalizing b with
  | nil => simp
  | cons c t ih => simpa using ih c

/-- C1: for every playlist or album collection of N tracks downloaded
at any chosen bitrate, with the fetch adapter failing on an arbitrary
subset F of the items, the batch loop issues a fetch call for every
item in source order without aborting, records each failure in the log
and skips it, and the final summary edit reports succeeded = N - |F|
and total = N (the success count equals that value as well). -/
theorem C1_batch_partial_failure_tolerance
    (fetch : String → Option String) (p : PlaylistInfo) (a : AlbumInfo) :
    ((start_playlist_download fetch p).2.1 =
        p.tracks.length -
          p.tracks.countP (fun t => (fetch (track_query t)).isNone)) ∧
    fetchCalls (start_playlist_download fetch p).1 =
        p.tracks.map track_query ∧
    failLogs (start_playlist_download fetch p).1 =
        (p.tracks.filter fun t => (fetch (track_query t)).isNone).map
          track_query ∧
    (start_playlist_download fetch p).1.getLast? =
        some (Act.summaryEdit
          (p.tracks.length -
            p.tracks.countP (fun t => (fetch (track_query t)).isNone))
          p.tracks.length) ∧
    ((start_album_download fetch a).2.1 =
        a.tracks.length -
          a.tracks.countP (fun t => (fetch (track_query t)).isNone)) ∧
    fetchCalls (start_album_download fetch a).1 =
        a.tracks.map track_query ∧
    failLogs (start_album_download fetch a).1 =
        (a.tracks.filter fun t => (fetch (track_query t)).isNone).map
          track_query ∧
    (start_album_download fetch a).1.getLast? =
        some (Act.summaryEdit
          (a.tracks.length -
            a.tracks.countP (fun t => (fetch (track_query t)).isNone))
          a.tracks.length) := by
  have cP := count_some_add_none fetch p.tracks
  have cA := count_some_add_none fetch a.tracks
  have hsP : p.tracks.countP (fun t => (fetch (track_query t)).isSome) =
      p.tracks.length -
        p.tracks.countP (fun t => (fetch (track_query t)).isNone) := by
    omega
  have hsA : a.tracks.countP (fun t => (fetch (track_query t)).isSome) =
      a.tracks.length -
        a.tracks.countP (fun t => (fetch (track_query t)).isNone) := by
    omega
  refine ⟨?_, ?_, ?_, ?_, ?_, ?_, ?_, ?_⟩
  · simp only [start_playlist_download]
    rw [runTracks_count, hsP]
  · simp only [start_playlist_download]
    rw [(extract_wrap _ _ _ _).1, runTracks_fetchCalls]
  · simp only [start_playlist_download]
    rw [(extract_wrap _ _ _ _).2.1, runTracks_failLogs]
  · simp only [start_playlist_download]
    rw [getLast_wrap, runTracks_count, hsP]
  · simp only [start_album_download]
    rw [runTracks_count, hsA]
  · simp only [start_album_download]
    rw [(extract_wrap _ _ _ _).1, runTracks_fetchCalls]
  · simp only [start_album_download]
    rw [(extract_wrap _ _ _ _).2.1, runTracks_failLogs]
  · simp only [start_album_download]
    rw [getLast_wrap, runTracks_count, hsA]

/-- C8: during a playlist or album batch of N items exactly one
progress edit is emitted per item, in source-collection order, the
percentage shown for the 1-based index i being i * 100 / N rounded
down; audio deliveries likewise follow source order, one per
successful item. -/
theorem C8_progress_updates_in_order
    (fetch : String → Option String) (p : PlaylistInfo) (a : AlbumInfo) :
    progressEdits (start_playlist_download fetch p).1 =
        (p.tracks.enumFrom 1).map
          (fun q => (q.1, p.tracks.length, q.2.name,
            q.1 * 100 / p.tracks.length)) ∧
    deliveries (start_playlist_download fetch p).1 =
        p.tracks.filterMap (fun t =>
          match fetch (track_query t) with
          | some pa => some (t.name, pa)
          | none => none) ∧
    progressEdits (start_album_download fetch a).1 =
        (a.tracks.enumFrom 1).map
          (fun q => (q.1, a.tracks.length, q.2.name,
            q.1 * 100 / a.tracks.length)) ∧
    deliveries (start_album_download fetch a).1 =
        a.tracks.filterMap (fun t =>
          match fetch (track_query t) with
          | some pa => some (t.name, pa)
          | none => none) := by
  refine ⟨?_, ?_, ?_, ?_⟩
  · simp only [start_playlist_download]
    rw [(extract_wrap _ _ _ _).2.2.1, runTracks_progress]
  · simp only [start_playlist_download]
    rw [(extract_wrap _ _ _ _).2.2.2, runTracks_deliveries]
  · simp only [start_album_download]
    rw [(extract_wrap _ _ _ _).2.2.1, runTracks_progress]
  · simp only [start_album_download]
    rw [(extract_wrap _ _ _ _).2.2.2, runTracks_deliveries]

set_option maxRecDepth 100000 in
/-- Sanity check of the MD5 implementation against the published
digest of the four-byte ASCII message "test". -/
theorem md5hex_test :
    md5hex "test" = "098f6bcd4621d373cade4e832627b4f6" := by decide

/-- leBytes always produces exactly k bytes. -/
theorem leBytes_length : ∀ (k n : Nat), (leBytes k n).length = k
  | 0, _ => rfl
  | k + 1, n => by simp [leBytes, leBytes_length k]

/-- Hex rendering doubles the number of bytes. -/
theorem flatMap_byteHex_length :
    ∀ l : List Nat, (l.flatMap byteHex).length = 2 * l.length
  | [] => rfl
  | x :: t => by
    simp [List.flatMap_cons, byteHex, flatMap_byteHex_length t]
    omega

/-- The digest is always 16 bytes. -/
theorem md5digestBytes_length (msg : List Nat) :
    (md5digestBytes msg).length = 16 := by
  simp only [md5digestBytes]
  simp [leBytes_length]

/-- The md5 hex digest always has 32 characters. -/
theorem md5hexChars_length (q : String) : (md5hexChars q).length = 32 := by
  rw [md5hexChars, flatMap_byteHex_length, md5digestBytes_length]

/-- The query hash embedded in an allocated path always has exactly 8
characters. -/
theorem file_hash_length (q : String) : (file_hash q).length = 8 := by
  have h := md5hexChars_length q
  simp [file_hash, String.length, h]

/-- Every character emitted by the run-collapsing pass over a kept
character list is a word character or a dash. -/
theorem collapseRuns_chars :
    ∀ (b : Bool) (l : List Char), (∀ c ∈ l, keepChar c = true) →
      ∀ c ∈ collapseRuns b l, isWordChar c = true ∨ c = '-'
  | _, [], _ => by simp [collapseRuns]
  | b, c0 :: rest, hk => by
    have hk0 := hk c0 (List.mem_cons_self c0 rest)
    have hkr : ∀ c ∈ rest, keepChar c = true :=
      fun c hc => hk c (List.mem_cons_of_mem c0 hc)
    intro c hc
    by_cases hd : isDashOrSpace c0
    · cases b with
      | true =>
        simp only [collapseRuns, hd, if_true] at hc
        exact collapseRuns_chars true rest hkr c hc
      | false =>
        simp only [collapseRuns, hd, if_true] at hc
        rcases List.mem_cons.mp hc with h | h
        · exact Or.inr h
        · exact collapseRuns_chars true rest hkr c h
    · simp only [collapseRuns, hd, if_false] at hc
      rcases List.mem_cons.mp hc with h | h
      · subst h
        left
        simp only [keepChar, Bool.or_eq_true] at hk0
        simp only [isDashOrSpace, Bool.or_eq_true] at hd
        rcases hk0 with (hw | hs) | hdash
        · exact hw
        · exact absurd (Or.inr hs) hd
        · exact absurd (Or.inl (by simpa using hdash)) hd
      · exact collapseRuns_chars false rest hkr c h

/-- Characters of the stripped, filtered query all pass the keep
filter. -/
theorem pyStrip_filter_chars (q : String) :
    ∀ c ∈ pyStrip (q.data.filter keepChar), keepChar c = true := by
  intro c hc
  simp only [pyStrip, List.mem_reverse] at hc
  have h1 : c ∈ ((q.data.filter keepChar).dropWhile isPySpace).reverse :=
    List.Sublist.mem hc (List.dropWhile_sublist _)
  have h2 : c ∈ (q.data.filter keepChar).dropWhile isPySpace :=
    List.mem_reverse.mp h1
  have h3 : c ∈ q.data.filter keepChar :=
    List.Sublist.mem h2 (List.dropWhile_sublist _)
  exact (List.mem_filter.mp h3).2

/-- Every character of the sanitized prefix is a word character or a
dash. -/
theorem safe_filename_chars (q : String) :
    ∀ c ∈ (safe_filename q).data, isWordChar c = true ∨ c = '-' := by
  intro c hc
  simp only [safe_filename] at hc
  exact collapseRuns_chars false _ (pyStrip_filter_chars q) c hc

/-- C3 amended: the path allocated for a download item is
deterministic — a pure function of the query — and is derived from the
8-character md5 hash of the query together with the sanitized
human-readable prefix (every character of which is a word character or
a dash); but two allocations within the same request for the identical
query return the identical path (they collide rather than being
distinct). -/
theorem C3_amended_path_deterministic (dir q : String) :
    output_template dir q =
      dir ++ "/" ++ safe_filename q ++ "-" ++ file_hash q ++ ".%(ext)s" ∧
    (file_hash q).length = 8 ∧
    (∀ c ∈ (safe_filename q).data, isWordChar c = true ∨ c = '-') ∧
    output_template dir q = output_template dir q :=
  ⟨rfl, file_hash_length q, safe_filename_chars q, rfl⟩

set_option maxRecDepth 1000000 in
/-- C3 counterexample: two concurrent allocations within the same
request for the identical query both return this very path — equal,
not distinct — refuting the claimed collision resistance for identical
queries. -/
theorem C3_counterexample_identical_query_collides :
    output_template "music_bot_x" "Shape of You Ed Sheeran" =
        "music_bot_x/Shape-of-You-Ed-Sheeran-9b0fff41.%(ext)s" ∧
    output_template "music_bot_x" "Shape of You Ed Sheeran" =
        output_template "music_bot_x" "Shape of You Ed Sheeran" :=
  ⟨by decide, rfl⟩

/-- C10: download_track is total at its interface: for every
subprocess environment (including raised exceptions and any return
code), every track and every quality string, it returns either None or
a path that os.path.exists confirms; no exception escapes to the
caller. -/
theorem C10_download_track_total (env : YtdlpEnv) (dir : String)
    (track : Track) (quality : String) :
    download_track env dir track quality = none ∨
    ∃ p, download_track env dir track quality = some p ∧
      os_path_exists dir env.filesAfter p = true := by
  cases h : _download_with_ytdlp_search env dir (track_query track) with
  | none => exact Or.inl (by simp [download_track, h])
  | some fp =>
    by_cases he : os_path_exists dir env.filesAfter fp = true
    · exact Or.inr ⟨fp, by simp [download_track, h, he], he⟩
    · exact Or.inl (by simp [download_track, h, he])

/-- cleanup_file never raises: every call returns a filesystem state
in which paths other than the released one are untouched. -/
theorem cleanup_file_ok (ok : Bool) (fs : String → Bool) (p : String) :
    ∃ fs2, cleanup_file ok fs p = Except.ok fs2 ∧
      ∀ q, q ≠ p → fs2 q = fs q := by
  by_cases h : fs p
  · cases ok with
    | true =>
      refine ⟨fun q => if q = p then false else fs q, ?_, ?_⟩
      · simp [cleanup_file, os_remove_result, h]
      · intro q hq; simp [hq]
    | false =>
      refine ⟨fs, ?_, fun q hq => rfl⟩
      simp [cleanup_file, os_remove_result, h]
  · refine ⟨fs, ?_, fun q hq => rfl⟩
    simp [cleanup_file, h]

/-- C4: releasing a scratch path is idempotent: calling cleanup_file
twice in succession on the same path never raises — in particular the
second call, on a path that no longer exists, also succeeds — and
neither call affects any other path, whether or not the underlying
os.remove succeeds. -/
theorem C4_release_idempotent (ok1 ok2 : Bool) (fs : String → Bool)
    (p q : String) (hq : q ≠ p) :
    ∃ fs1 fs2, cleanup_file ok1 fs p = Except.ok fs1 ∧
      cleanup_file ok2 fs1 p = Except.ok fs2 ∧
      fs1 q = fs q ∧ fs2 q = fs q := by
  obtain ⟨fs1, h1, ho1⟩ := cleanup_file_ok ok1 fs p
  obtain ⟨fs2, h2, ho2⟩ := cleanup_file_ok ok2 fs1 p
  exact ⟨fs1, fs2, h1, h2, ho1 q hq, (ho2 q hq).trans (ho1 q hq)⟩

/-- Witness for C4 at a concrete input: the scratch state containing
exactly a.mp3, released twice at a.mp3, observed at b.mp3. -/
theorem C4_release_idempotent_witness :
    ("b.mp3" ≠ "a.mp3") ∧
    ∃ fs1 fs2,
      cleanup_file true (fun s => s == "a.mp3") "a.mp3" = Except.ok fs1 ∧
      cleanup_file true fs1 "a.mp3" = Except.ok fs2 ∧
      fs1 "b.mp3" = (fun s : String => s == "a.mp3") "b.mp3" ∧
      fs2 "b.mp3" = (fun s : String => s == "a.mp3") "b.mp3" :=
  ⟨by decide,
   C4_release_idempotent true true (fun s => s == "a.mp3") "a.mp3" "b.mp3"
     (by decide)⟩

/-- C5 amended: a quality-selection event arriving on an empty slot
never triggers a fetch call; the single-track quality_... event shows
the session-expired message, but the playlist and album
download_..._... events on an empty slot are silently ignored — no
message of any kind is shown. -/
theorem C5_amended_stale_session (fetch : String → Option String)
    (ud : UserData) (q : String) (ht : ud.current_track = none)
    (hp : ud.current_playlist = none) (ha : ud.current_album = none) :
    handle_quality_selection fetch ud q = [Act.sessionExpired] ∧
    handle_download_request fetch ud (DLRequest.playlist q) = [] ∧
    handle_download_request fetch ud (DLRequest.album q) = [] ∧
    fetchCalls (handle_quality_selection fetch ud q) = [] ∧
    fetchCalls (handle_download_request fetch ud (DLRequest.playlist q)) =
      [] ∧
    fetchCalls (handle_download_request fetch ud (DLRequest.album q)) =
      [] := by
  refine ⟨?_, ?_, ?_, ?_, ?_, ?_⟩ <;>
    simp [handle_quality_selection, handle_download_request, ht, hp, ha,
      fetchCalls]

/-- Witness for C5 at a concrete input: the empty conversation state
with quality 192. -/
theorem C5_amended_stale_session_witness :
    UserData.empty.current_track = none ∧
    UserData.empty.current_playlist = none ∧
    UserData.empty.current_album = none ∧
    (handle_quality_selection (fun _ => none) UserData.empty "192" =
        [Act.sessionExpired] ∧
      handle_download_request (fun _ => none) UserData.empty
          (DLRequest.playlist "192") = [] ∧
      handle_download_request (fun _ => none) UserData.empty
          (DLRequest.album "192") = [] ∧
      fetchCalls (handle_quality_selection (fun _ => none) UserData.empty
          "192") = [] ∧
      fetchCalls (handle_download_request (fun _ => none) UserData.empty
          (DLRequest.playlist "192")) = [] ∧
      fetchCalls (handle_download_request (fun _ => none) UserData.empty
          (DLRequest.album "192")) = []) :=
  ⟨rfl, rfl, rfl,
   C5_amended_stale_session (fun _ => none) UserData.empty "192" rfl rfl rfl⟩

/-- C5 counterexample: a playlist-download quality event with an empty
playlist slot produces no message at all — in particular the user is
not shown the session-expired message the claim requires. -/
theorem C5_counterexample_collection_silent :
    handle_download_request (fun _ => none) UserData.empty
        (DLRequest.playlist "192") = [] ∧
    Act.sessionExpired ∉
      handle_download_request (fun _ => none) UserData.empty
        (DLRequest.playlist "192") := by
  refine ⟨rfl, ?_⟩
  simp [handle_download_request, UserData.empty]

/-- C6 amended: each successful resolution populates its own slot and
stores the processing message id, leaving the other two slots exactly
as they were — nothing overwrites or clears them, so several slots can
be populated at once. -/
theorem C6_amended_resolution_keeps_other_slots (ud : UserData) (m : Nat)
    (t : TrackInfo) (p : PlaylistInfo) (a : AlbumInfo) :
    (handle_single_track (some t) ud m).1.current_track = some t ∧
    (handle_single_track (some t) ud m).1.current_playlist =
      ud.current_playlist ∧
    (handle_single_track (some t) ud m).1.current_album =
      ud.current_album ∧
    (handle_playlist (some p) ud m).1.current_playlist = some p ∧
    (handle_playlist (some p) ud m).1.current_track = ud.current_track ∧
    (handle_playlist (some p) ud m).1.current_album = ud.current_album ∧
    (handle_album (some a) ud m).1.current_album = some a ∧
    (handle_album (some a) ud m).1.current_track = ud.current_track ∧
    (handle_album (some a) ud m).1.current_playlist =
      ud.current_playlist :=
  ⟨rfl, rfl, rfl, rfl, rfl, rfl, rfl, rfl, rfl⟩

/-- C6 counterexample: after resolving a track and then a playlist in
the same session, the track slot and the playlist slot are both
populated — more than one pending resolved reference is held at a
time. -/
theorem C6_counterexample_two_slots_populated :
    ((handle_playlist (some ⟨"P", "owner", [⟨"S", "A"⟩]⟩)
        (handle_single_track (some ⟨"S", "A", "3:00", 180000⟩)
          UserData.empty 1).1 2).1.current_track).isSome = true ∧
    ((handle_playlist (some ⟨"P", "owner", [⟨"S", "A"⟩]⟩)
        (handle_single_track (some ⟨"S", "A", "3:00", 180000⟩)
          UserData.empty 1).1 2).1.current_playlist).isSome = true := by
  decide

/-- C7 amended: a collection whose resolution returns the not-found
signal gets the not-found reply; but a collection resolved with zero
items is not treated as a failure — the quality prompt is issued
showing 0 tracks and the slot is populated, so a later download
request would run as a zero-length batch. -/
theorem C7_amended_empty_collection_prompts (ud : UserData) (m : Nat)
    (p : PlaylistInfo) (a : AlbumInfo) (hp : p.tracks = [])
    (ha : a.tracks = []) :
    (handle_playlist none ud m).2 = [Act.playlistNotFound] ∧
    (handle_album none ud m).2 = [Act.albumNotFound] ∧
    (handle_playlist (some p) ud m).2 = [Act.playlistPrompt p.name 0] ∧
    (handle_playlist (some p) ud m).1.current_playlist = some p ∧
    (handle_album (some a) ud m).2 = [Act.albumPrompt a.name 0] ∧
    (handle_album (some a) ud m).1.current_album = some a := by
  refine ⟨rfl, rfl, ?_, rfl, ?_, rfl⟩
  · simp [handle_playlist, hp]
  · simp [handle_album, ha]

/-- Witness for C7 at a concrete input: an empty playlist and an empty
album in a fresh session. -/
theorem C7_amended_empty_collection_prompts_witness :
    (PlaylistInfo.mk "EmptyP" "me" []).tracks = [] ∧
    (AlbumInfo.mk "EmptyA" "band" []).tracks = [] ∧
    ((handle_playlist none UserData.empty 1).2 = [Act.playlistNotFound] ∧
      (handle_album none UserData.empty 1).2 = [Act.albumNotFound] ∧
      (handle_playlist (some ⟨"EmptyP", "me", []⟩) UserData.empty 1).2 =
        [Act.playlistPrompt "EmptyP" 0] ∧
      (handle_playlist (some ⟨"EmptyP", "me", []⟩) UserData.empty
          1).1.current_playlist = some ⟨"EmptyP", "me", []⟩ ∧
      (handle_album (some ⟨"EmptyA", "band", []⟩) UserData.empty 1).2 =
        [Act.albumPrompt "EmptyA" 0] ∧
      (handle_album (some ⟨"EmptyA", "band", []⟩) UserData.empty
          1).1.current_album = some ⟨"EmptyA", "band", []⟩) :=
  ⟨rfl, rfl,
   C7_amended_empty_collection_prompts UserData.empty 1
     ⟨"EmptyP", "me", []⟩ ⟨"EmptyA", "band", []⟩ rfl rfl⟩

/-- C7 counterexample: a playlist resolved with zero items does not
get the not-found response — the quality prompt advertising 0 tracks
is issued instead. -/
theorem C7_counterexample_zero_items_not_failure :
    (handle_playlist (some ⟨"Empty", "me", []⟩) UserData.empty 1).2 ≠
        [Act.playlistNotFound] ∧
    Act.playlistPrompt "Empty" 0 ∈
      (handle_playlist (some ⟨"Empty", "me", []⟩) UserData.empty 1).2 := by
  decide

/-- C9 amended: the cancel handler edits the cancelled message but
reads and writes no conversation state: the pending slot survives
cancellation, and a later quality-selection event for the same
reference still finds the slot and issues a fetch call. -/
theorem C9_amended_cancel_keeps_slot (ud : UserData) (t : TrackInfo)
    (fetch : String → Option String) (q : String)
    (h : ud.current_track = some t) :
    (cancel_download ud).2 = [Act.cancelledMsg] ∧
    (cancel_download ud).1 = ud ∧
    fetchCalls (handle_quality_selection fetch (cancel_download ud).1 q) =
      [track_info_query t] := by
  refine ⟨rfl, rfl, ?_⟩
  cases hf : fetch (track_info_query t) <;>
    simp [cancel_download, handle_quality_selection, h,
      start_track_download, hf, fetchCalls]

/-- Witness for C9 at a concrete input: a session holding a resolved
track, cancelled, then sent quality 192. -/
theorem C9_amended_cancel_keeps_slot_witness :
    (UserData.mk (some ⟨"S", "A", "3:00", 180000⟩) none none
        none).current_track = some ⟨"S", "A", "3:00", 180000⟩ ∧
    ((cancel_download ⟨some ⟨"S", "A", "3:00", 180000⟩, none, none,
        none⟩).2 = [Act.cancelledMsg] ∧
      (cancel_download ⟨some ⟨"S", "A", "3:00", 180000⟩, none, none,
          none⟩).1 = ⟨some ⟨"S", "A", "3:00", 180000⟩, none, none, none⟩ ∧
      fetchCalls (handle_quality_selection (fun _ => none)
          (cancel_download ⟨some ⟨"S", "A", "3:00", 180000⟩, none, none,
            none⟩).1 "192") =
        [track_info_query ⟨"S", "A", "3:00", 180000⟩]) :=
  ⟨rfl,
   C9_amended_cancel_keeps_slot
     ⟨some ⟨"S", "A", "3:00", 180000⟩, none, none, none⟩
     ⟨"S", "A", "3:00", 180000⟩ (fun _ => none) "192" rfl⟩

/-- C9 counterexample: after a cancel event the track slot still holds
the reference, and a subsequent quality selection for it issues a
fetch call — the claim that the slot is cleared and no fetch can occur
afterwards fails. -/
theorem C9_counterexample_cancel_does_not_clear :
    (cancel_download ⟨some ⟨"S", "A", "3:00", 180000⟩, none, none,
        none⟩).1.current_track = some ⟨"S", "A", "3:00", 180000⟩ ∧
    fetchCalls (handle_quality_selection (fun _ => none)
        (cancel_download ⟨some ⟨"S", "A", "3:00", 180000⟩, none, none,
          none⟩).1 "192") ≠ [] := by
  decide

/-- C2: the batch loops contain no cleanup call: after the final
summary the scratch files of all successful fetches are still
allocated, for every playlist and album; concretely, a one-track
playlist whose fetch succeeds ends its batch (summary 1/1) with the
scratch file still on disk. -/
theorem C2_scratch_files_not_released (fetch : String → Option String)
    (p : PlaylistInfo) (a : AlbumInfo) :
    (start_playlist_download fetch p).2.2 =
        p.tracks.filterMap (fun t => fetch (track_query t)) ∧
    (start_album_download fetch a).2.2 =
        a.tracks.filterMap (fun t => fetch (track_query t)) ∧
    (start_playlist_download (fun q => some (q ++ ".mp3"))
        ⟨"P", "owner", [⟨"Song", "Artist"⟩]⟩).2.2 = ["Song Artist.mp3"] ∧
    (start_playlist_download (fun q => some (q ++ ".mp3"))
        ⟨"P", "owner", [⟨"Song", "Artist"⟩]⟩).1.getLast? =
      some (Act.summaryEdit 1 1) := by
  refine ⟨?_, ?_, by decide, by decide⟩
  · simp only [start_playlist_download]
    rw [runTracks_files]
  · simp only [start_album_download]
    rw [runTracks_files]
